import Mathlib

set_option maxRecDepth 8192

/-! Shallow embedding of the yamps paste server (src/main.rs).

Machine integers (usize, u64) are modelled as Nat, with an explicit wrap
modulo 2^64 where release-mode Rust subtraction can wrap.  Rust String
capacity is modelled by the string's UTF-8 byte length.  Wall-clock
timestamps (DateTime<Local>, Instant) are modelled as Nat nanoseconds.
The persistent store (Postgres via sqlx) is an external collaborator and
is modelled as an oracle: a function from key to lookup result for reads,
and a list of per-attempt insert outcomes for the key-generation loop. -/

/-- Association-list lookup; models DashMap::get (the maps in main.rs are
DashMap<String, V> with per-key atomic access). -/
def mapGet {α : Type} (m : List (String × α)) (k : String) : Option α :=
  (m.find? (fun p => p.1 == k)).map (fun p => p.2)

/-- Association-list insert-or-replace; models DashMap::insert. -/
def mapInsert {α : Type} (m : List (String × α)) (k : String) (v : α) : List (String × α) :=
  (k, v) :: m.filter (fun p => p.1 != k)

/-- Association-list removal; models DashMap::remove (a no-op when the key
is absent). -/
def mapRemove {α : Type} (m : List (String × α)) (k : String) : List (String × α) :=
  m.filter (fun p => p.1 != k)

/-- The cache of main.rs lines 51-54: a concurrent map from key to
contents plus an ordering index, `RwLock<BinaryHeap<(DateTime<Local>, String)>>`.
The heap is modelled by its multiset of (timestamp, key) records as a list;
peek/pop semantics are given by heapMax/heapPop below. -/
structure Cache where
  data : List (String × String)
  expire_timestamps : List (Nat × String)
deriving DecidableEq

/-- Strict order used by Rust's BinaryHeap<(DateTime<Local>, String)>:
lexicographic on the pair, timestamp first.  Rust's std BinaryHeap is a
MAX-heap for this order. -/
def pairLtb (a b : Nat × String) : Bool :=
  a.1 < b.1 || (a.1 == b.1 && decide (a.2 < b.2))

/-- BinaryHeap::peek - returns the greatest record (Rust BinaryHeap is a
max-heap), or none when the heap is empty. -/
def heapMax (l : List (Nat × String)) : Option (Nat × String) :=
  match l with
  | [] => none
  | x :: xs => some (xs.foldl (fun a b => if pairLtb a b then b else a) x)

/-- BinaryHeap::pop - removes one occurrence of the greatest record. -/
def heapPop (l : List (Nat × String)) : List (Nat × String) :=
  match heapMax l with
  | none => l
  | some m => l.erase m

/-- usize subtraction as in a release build: wraps modulo 2^64 on
underflow (a debug build would panic instead). -/
def usizeSub (a b : Nat) : Nat :=
  (a + (2 ^ 64 - b % 2 ^ 64)) % 2 ^ 64

/-- Size computation of clear_cache (main.rs lines 270-273): sum of
`item.value().capacity()` over all live entries; capacity is modelled as
the UTF-8 byte length of the stored contents. -/
def cacheSize (c : Cache) : Nat :=
  c.data.foldl (fun a p => a + p.2.utf8ByteSize) 0

/-- State of the eviction while-loop of clear_cache: the running `size`
variable, the key-to-contents map, and the ordering heap. -/
structure EvState where
  size : Nat
  data : List (String × String)
  heap : List (Nat × String)
deriving DecidableEq

/-- One iteration of the while-loop body of clear_cache (main.rs lines
274-282): peek the heap; if a record is there, subtract the POPPED KEY's
capacity (`item.1.capacity()`) from size, remove that key from the map,
and pop the record.  If the heap is empty the body does nothing. -/
def evictOnce (s : EvState) : EvState :=
  match heapMax s.heap with
  | none => s
  | some item =>
      { size := usizeSub s.size item.2.utf8ByteSize
        data := mapRemove s.data item.2
        heap := s.heap.erase item }

/-- The `while size > max_size` eviction loop of clear_cache, made total
with fuel: `some s` means the loop exited (size at or below the bound)
within that many iterations, `none` means it was still running. -/
def enforceLoop (maxSize : Nat) : Nat → EvState → Option EvState
  | 0, s => if s.size ≤ maxSize then some s else none
  | n + 1, s => if s.size ≤ maxSize then some s else enforceLoop maxSize n (evictOnce s)

/-- One tick of the clear_cache maintenance task (main.rs lines 265-286):
with no configured capacity it does nothing; otherwise the bound is
`max * 1_048_576` bytes, the size is recomputed by full scan, and the
eviction loop runs.  `none` means the tick never finished (the while-loop
did not exit within the given fuel). -/
def clear_cache_tick : Option Nat → Nat → Cache → Option Cache
  | none, _, c => some c
  | some m, fuel, c =>
      (enforceLoop (m * 1048576) fuel
          { size := cacheSize c, data := c.data, heap := c.expire_timestamps }).map
        (fun s => { data := s.data, expire_timestamps := s.heap })

/-- The Error enum of main.rs lines 288-304 (error payloads dropped except
the RateLimited seconds, which the response body uses). -/
inductive Error where
  | TimeError
  | FieldInvalid
  | InternalError
  | ToStr
  | InvalidHeaderValue
  | Sqlx
  | Multipart
  | TemplatingError
  | RateLimited (secs : Nat)
  | PasteTooLarge
  | NotFound
deriving DecidableEq

deriving instance DecidableEq for Except

/-- The HTTP status chosen by `impl IntoResponse for Error`
(main.rs lines 336-388).  BAD_REQUEST = 400, INTERNAL_SERVER_ERROR = 500,
TOO_MANY_REQUESTS = 429. -/
def errorStatus : Error → Nat
  | Error.TimeError => 400
  | Error.FieldInvalid => 400
  | Error.Multipart => 400
  | Error.InternalError => 500
  | Error.ToStr => 500
  | Error.InvalidHeaderValue => 500
  | Error.Sqlx => 500
  | Error.TemplatingError => 500
  | Error.RateLimited _ => 429
  | Error.PasteTooLarge => 429
  | Error.NotFound => 429

/-- Result of the persistent-store point lookup
(`SELECT contents FROM pastes WHERE key = $1` with fetch_one): a row whose
contents column is nullable, RowNotFound, or any other sqlx error. -/
inductive StoreLookup where
  | row (contents : Option String)
  | rowNotFound
  | otherError
deriving DecidableEq

/-- The cache-hit test of get_paste (main.rs line 216):
`if let (Some(_), Some(item)) = (state.config.cache, cache.data.get(&id))`. -/
def cacheHit (cfgCache : Option Nat) (c : Cache) (id : String) : Option String :=
  match cfgCache, mapGet c.data id with
  | some _, some item => some item
  | _, _ => none

/-- get_paste (main.rs lines 208-247), up to template rendering (tera is an
external collaborator; the raw contents stand for the rendered page).
Returns the request outcome together with the cache state afterwards. -/
def get_paste (cfgCache : Option Nat) (c : Cache) (store : String → StoreLookup)
    (id : String) (now : Nat) : Except Error String × Cache :=
  match cacheHit cfgCache c id with
  | some item => (Except.ok item, c)
  | none =>
      match store id with
      | StoreLookup.rowNotFound => (Except.error Error.NotFound, c)
      | StoreLookup.otherError => (Except.error Error.Sqlx, c)
      | StoreLookup.row none => (Except.error Error.InternalError, c)
      | StoreLookup.row (some contents) =>
          match cfgCache with
          | some _ =>
              (Except.ok contents,
                { data := mapInsert c.data id contents
                  expire_timestamps := (now, id) :: c.expire_timestamps })
          | none => (Except.ok contents, c)

/-- Outcome of the rate-limit check. -/
inductive RateOutcome where
  | allowed
  | rejected (retryAfterSecs : Nat)
deriving DecidableEq

/-- The rate-limit check-and-record of submit (main.rs lines 149-158).
Times are Nat nanoseconds; `wait` is the configured interval in seconds.
`Duration::from_secs(wait).checked_sub(last.elapsed())` is Some exactly
when elapsed <= wait seconds, in which case the request is rejected with
the remainder floored to whole seconds and the map is left untouched;
otherwise (or with no prior record) the identity is stamped with now. -/
def checkAndRecord (m : List (String × Nat)) (remote : String) (now wait : Nat) :
    RateOutcome × List (String × Nat) :=
  match mapGet m remote with
  | some last =>
      if now - last ≤ wait * 1000000000 then
        (RateOutcome.rejected ((wait * 1000000000 - (now - last)) / 1000000000), m)
      else
        (RateOutcome.allowed, mapInsert m remote now)
  | none => (RateOutcome.allowed, mapInsert m remote now)

/-- Outcome of one `INSERT INTO pastes VALUES ($1, $2, $3)` attempt. -/
inductive InsertOutcome where
  | ok
  | keyCollision
  | otherError
deriving DecidableEq

/-- The key-generation loop of submit (main.rs lines 178-194), driven by an
oracle listing the generated key and insert outcome of each successive
attempt: `if let Ok(_) = query.execute(db).await { break id; }` - the loop
exits ONLY on a successful insert and retries on every Err.  `none` means
the oracle ran out while the loop was still retrying. -/
def submitKeyLoop : List (String × InsertOutcome) → Option String
  | [] => none
  | (id, r) :: rest => if r = InsertOutcome.ok then some id else submitKeyLoop rest

/-- Follows the spec's words, for comparison with submitKeyLoop: retry only
on a key collision; propagate any non-collision insert error immediately.
`some (some id)` = key returned, `some none` = error propagated to the
caller, `none` = still looping. -/
def keyLoopSpec : List (String × InsertOutcome) → Option (Option String)
  | [] => none
  | (id, InsertOutcome.ok) :: _ => some (some id)
  | (_, InsertOutcome.keyCollision) :: rest => keyLoopSpec rest
  | (_, InsertOutcome.otherError) :: _ => some none

/-- One multipart field as seen by the field loop of submit: either
`multipart.next_field()` itself failed, or a field with an optional name
and the text (none = `field.text()` failed). -/
inductive FieldRes where
  | fieldErr
  | field (name : Option String) (text : Option String)
deriving DecidableEq

/-- The multipart field loop of submit (main.rs lines 164-170): `data`
starts empty; a next_field error propagates as Multipart; a nameless field
is FieldInvalid; the first field named "contents" supplies the data and
breaks; other fields are skipped; if no field matches, data stays "". -/
def extractContents : List FieldRes → Except Error String
  | [] => Except.ok ""
  | FieldRes.fieldErr :: _ => Except.error Error.Multipart
  | FieldRes.field none _ :: _ => Except.error Error.FieldInvalid
  | FieldRes.field (some n) t :: rest =>
      if n = "contents" then
        match t with
        | some txt => Except.ok txt
        | none => Except.error Error.Multipart
      else extractContents rest

/-- tera::escape_html on a single character. -/
def escapeChar (c : Char) : String :=
  if c = '&' then "&amp;"
  else if c = '<' then "&lt;"
  else if c = '>' then "&gt;"
  else if c = Char.ofNat 34 then "&quot;"
  else if c = Char.ofNat 39 then "&#x27;"
  else if c = '/' then "&#x2F;"
  else String.singleton c

/-- tera::escape_html over a whole string. -/
def escape_html (s : String) : String :=
  String.join (s.data.map escapeChar)

/-- Content sanitization of submit (main.rs line 177):
`tera::escape_html(&data).replace("\r\n", "<br>").replace("\n", "<br>")`. -/
def sanitize (data : String) : String :=
  ((escape_html data).replace "\r\n" "<br>").replace "\n" "<br>"

/-- The cache-population step of submit (main.rs lines 195-199): only when
a cache capacity is configured, insert the contents under the new key and
push (now, key) onto the ordering heap. -/
def submitCachePut (cfgCache : Option Nat) (c : Cache) (key contents : String) (now : Nat) :
    Cache :=
  match cfgCache with
  | some _ =>
      { data := mapInsert c.data key contents
        expire_timestamps := (now, key) :: c.expire_timestamps }
  | none => c

/-- The Config struct of main.rs lines 35-43. -/
structure Config where
  db : String
  port : Nat
  contact_email : String
  size_limit : Option Nat
  ratelimit : Option Nat
  cache : Option Nat
deriving DecidableEq

/-- submit after the rate-limit stage (main.rs lines 161-205): declared
length check against `size_limit.unwrap_or(1024) * 1024`, multipart field
extraction, sanitization, the key-generation insert loop, and cache
population.  The rate-limit map is not touched in this stage.  `none`
means the key loop was still retrying when the oracle ran out. -/
def submitBody (cfg : Config) (len : Nat) (fields : List FieldRes)
    (rlMap : List (String × Nat)) (c : Cache)
    (attempts : List (String × InsertOutcome)) (now : Nat) :
    Option (Except Error String × List (String × Nat) × Cache) :=
  if len > cfg.size_limit.getD 1024 * 1024 then
    some (Except.error Error.PasteTooLarge, rlMap, c)
  else
    match extractContents fields with
    | Except.error e => some (Except.error e, rlMap, c)
    | Except.ok data =>
        match submitKeyLoop attempts with
        | none => none
        | some key =>
            some (Except.ok key, rlMap, submitCachePut cfg.cache c key (sanitize data) now)

/-- submit (main.rs lines 133-206).  The client identity is the X_REAL_IP
header when present, else the transport address (lines 143-148).  With
rate limiting configured the check-and-record runs FIRST (lines 142-159);
a rejection returns early, otherwise the identity is stamped with now and
the rest of the pipeline runs.  On success the result carries the new key
(the handler answers 302 with Location /key). -/
def submit (cfg : Config) (x_real_ip : Option String) (addrIp : String) (len : Nat)
    (fields : List FieldRes) (rlMap : List (String × Nat)) (c : Cache)
    (attempts : List (String × InsertOutcome)) (now : Nat) :
    Option (Except Error String × List (String × Nat) × Cache) :=
  match cfg.ratelimit with
  | some wait =>
      match checkAndRecord rlMap (x_real_ip.getD addrIp) now wait with
      | (RateOutcome.rejected t, m2) => some (Except.error (Error.RateLimited t), m2, c)
      | (RateOutcome.allowed, m2) => submitBody cfg len fields m2 c attempts now
  | none => submitBody cfg len fields rlMap c attempts now

/-! Helper lemmas shared by several claim theorems. -/

/-- Looking up a key just inserted yields the inserted value. -/
theorem mapGet_insert_self {α : Type} (m : List (String × α)) (k : String) (v : α) :
    mapGet (mapInsert m k v) k = some v := by
  unfold mapGet mapInsert
  simp [List.find?]

/-- With no configured cache capacity, the cache-hit test of get_paste
never fires. -/
theorem cacheHit_disabled (c : Cache) (id : String) : cacheHit none c id = none := by
  unfold cacheHit
  cases mapGet c.data id <;> rfl

/-- Unrolling one iteration of the eviction loop while the size still
exceeds the bound. -/
theorem enforceLoop_succ (maxSize n : Nat) (s : EvState) (h : ¬ s.size ≤ maxSize) :
    enforceLoop maxSize (n + 1) s = enforceLoop maxSize n (evictOnce s) := by
  simp [enforceLoop, h]

/-- A state with an empty ordering index and size above the bound is stuck:
the loop body does nothing, so no amount of fuel finishes the loop. -/
theorem enforceLoop_stuck (maxSize : Nat) (s : EvState) (hh : s.heap = [])
    (hs : maxSize < s.size) : ∀ n, enforceLoop maxSize n s = none := by
  have he : evictOnce s = s := by
    unfold evictOnce
    rw [hh]
    rfl
  intro n
  induction n with
  | zero =>
      simp only [enforceLoop, ite_eq_right_iff]
      intro hcon
      omega
  | succ k ih =>
      rw [enforceLoop_succ maxSize k s (by omega), he]
      exact ih

/-- If one loop iteration leads from s to a state on which the loop never
finishes, the loop never finishes from s either. -/
theorem enforceLoop_step_none (maxSize : Nat) (s t : EvState) (hs : ¬ s.size ≤ maxSize)
    (ht : evictOnce s = t) (h : ∀ n, enforceLoop maxSize n t = none) :
    ∀ n, enforceLoop maxSize n s = none := by
  intro n
  cases n with
  | zero =>
      simp only [enforceLoop, ite_eq_right_iff]
      intro hcon
      exact absurd hcon hs
  | succ k =>
      rw [enforceLoop_succ maxSize k s hs, ht]
      exact h k

/-- When the check-and-record stage reports allowed, the whole of its
result is the allowed outcome together with the freshly stamped map. -/
theorem checkAndRecord_allowed_eq (m : List (String × Nat)) (remote : String) (now wait : Nat)
    (h : (checkAndRecord m remote now wait).1 = RateOutcome.allowed) :
    checkAndRecord m remote now wait = (RateOutcome.allowed, mapInsert m remote now) := by
  unfold checkAndRecord at h ⊢
  cases hm : mapGet m remote with
  | none => rfl
  | some last =>
      rw [hm] at h
      have h2 : (if now - last ≤ wait * 1000000000 then
            (RateOutcome.rejected ((wait * 1000000000 - (now - last)) / 1000000000), m)
          else (RateOutcome.allowed, mapInsert m remote now)).1 = RateOutcome.allowed := h
      show (if now - last ≤ wait * 1000000000 then
            (RateOutcome.rejected ((wait * 1000000000 - (now - last)) / 1000000000), m)
          else (RateOutcome.allowed, mapInsert m remote now))
        = (RateOutcome.allowed, mapInsert m remote now)
      by_cases hle : now - last ≤ wait * 1000000000
      · rw [if_pos hle] at h2
        exact absurd h2 (by simp)
      · rw [if_neg hle]

/-- Unfolding of submit when rate limiting is configured: the
check-and-record stage runs first, on the identity resolved from the
X_REAL_IP header or the transport address. -/
theorem submit_ratelimit_some (cfg : Config) (xip : Option String) (addrIp : String)
    (len : Nat) (fields : List FieldRes) (m : List (String × Nat)) (c : Cache)
    (atts : List (String × InsertOutcome)) (now wait : Nat)
    (hrl : cfg.ratelimit = some wait) :
    submit cfg xip addrIp len fields m c atts now
      = match checkAndRecord m (xip.getD addrIp) now wait with
        | (RateOutcome.rejected t, m2) => some (Except.error (Error.RateLimited t), m2, c)
        | (RateOutcome.allowed, m2) => submitBody cfg len fields m2 c atts now := by
  unfold submit
  rw [hrl]

/-- The post-rate-limit stage of submit never touches the rate-limit map. -/
theorem submitBody_keeps_map (cfg : Config) (len : Nat) (fields : List FieldRes)
    (m : List (String × Nat)) (c : Cache) (atts : List (String × InsertOutcome)) (now : Nat)
    (res : Except Error String) (m2 : List (String × Nat)) (c2 : Cache)
    (h : submitBody cfg len fields m c atts now = some (res, m2, c2)) : m2 = m := by
  unfold submitBody at h
  split at h
  · simp only [Option.some.injEq, Prod.mk.injEq] at h
    exact h.2.1.symm
  · split at h
    · simp only [Option.some.injEq, Prod.mk.injEq] at h
      exact h.2.1.symm
    · split at h
      · exact absurd h (by simp)
      · simp only [Option.some.injEq, Prod.mk.injEq] at h
        exact h.2.1.symm

/-! Claim theorems. -/

/-- C1: the claim says the ordering index yields expiry records in
timestamp-ascending order and that of two present entries A (t1) and
B (t2 > t1) a forced eviction removes A first.  The code stores the index
in a std BinaryHeap, which is a MAX-heap: peek yields the LATEST record,
and the forced eviction removes B (key bbbb2222, t = 2) while A
(key aaaa1111, t = 1) stays. -/
theorem C1_eviction_pops_latest_first :
    heapMax [(1, "aaaa1111"), (2, "bbbb2222")] = some (2, "bbbb2222") ∧
    enforceLoop 12 5
        ⟨20, [("aaaa1111", "0123456789"), ("bbbb2222", "0123456789")],
          [(1, "aaaa1111"), (2, "bbbb2222")]⟩
      = some ⟨12, [("aaaa1111", "0123456789")], [(1, "aaaa1111")]⟩ := by
  decide

/-- C2: the claim says the eviction loop always terminates because it also
stops when the ordering index is empty.  The code's while-loop only tests
`size > max_size`; with the cache holding one 10-byte entry under key
abcd1234 and a bound of 0 bytes, the single pop shrinks size by the key's
8 bytes only, the index empties with size = 2 > 0, and the loop body then
does nothing forever: no amount of fuel makes the tick finish. -/
theorem C2_enforce_loop_nonterminating :
    ∀ fuel : Nat,
    clear_cache_tick (some 0) fuel ⟨[("abcd1234", "0123456789")], [(5, "abcd1234")]⟩ = none := by
  intro fuel
  have h2 : ∀ n, enforceLoop 0 n ⟨2, [], []⟩ = none :=
    enforceLoop_stuck 0 ⟨2, [], []⟩ rfl (by decide)
  have h1 : ∀ n, enforceLoop 0 n ⟨10, [("abcd1234", "0123456789")], [(5, "abcd1234")]⟩ = none :=
    enforceLoop_step_none 0 _ _ (by decide) (by decide) h2
  have he : clear_cache_tick (some 0) fuel ⟨[("abcd1234", "0123456789")], [(5, "abcd1234")]⟩
      = (enforceLoop 0 fuel ⟨10, [("abcd1234", "0123456789")], [(5, "abcd1234")]⟩).map
          (fun s => ({ data := s.data, expire_timestamps := s.heap } : Cache)) := rfl
  rw [he, h1 fuel]
  rfl

/-- C3: the claim says a popped record whose key is live subtracts the
entry's CONTENT size, and a stale record leaves the total unchanged.  The
code subtracts `item.1.capacity()` - the popped KEY's size - and does so
unconditionally: popping the live key abcd1234 (content 10 bytes) takes
the total from 10 to 2 instead of 0, and popping the stale record
zzzz9999 (no such entry) also takes the total from 10 to 2 instead of
leaving it at 10.  (The full-scan size computation itself is as claimed:
cacheSize sums the live entries' sizes.) -/
theorem C3_size_accounting_diverges :
    cacheSize ⟨[("abcd1234", "0123456789")], [(5, "abcd1234")]⟩ = 10 ∧
    evictOnce ⟨10, [("abcd1234", "0123456789")], [(5, "abcd1234")]⟩ = ⟨2, [], []⟩ ∧
    evictOnce ⟨10, [("abcd1234", "0123456789")], [(7, "zzzz9999"), (5, "abcd1234")]⟩
      = ⟨2, [("abcd1234", "0123456789")], [(5, "abcd1234")]⟩ := by
  decide

/-- C4 counterexample: the claim says a non-collision insert error is
propagated to the caller immediately and not retried.  With the first
attempt failing with a non-collision error and the second succeeding, the
code's loop (which breaks only on Ok) retries and returns the second key,
whereas the spec's loop (keyLoopSpec) propagates the error. -/
theorem C4_counterexample :
    submitKeyLoop [("aaaa0001", InsertOutcome.otherError), ("aaaa0002", InsertOutcome.ok)]
      = some "aaaa0002" ∧
    keyLoopSpec [("aaaa0001", InsertOutcome.otherError), ("aaaa0002", InsertOutcome.ok)]
      = some none := by
  decide

/-- C4 amended: the key-generation loop retries on EVERY insert failure,
collision or not, with a freshly generated key; it never propagates an
insert error, and it produces a key exactly when some attempt succeeds. -/
theorem C4_insert_loop_retries_all_errors :
    ∀ (atts rest : List (String × InsertOutcome)) (idA idB : String),
    submitKeyLoop ((idA, InsertOutcome.otherError) :: rest) = submitKeyLoop rest ∧
    submitKeyLoop ((idB, InsertOutcome.keyCollision) :: rest) = submitKeyLoop rest ∧
    (submitKeyLoop atts = none ↔ atts.all (fun p => p.2 != InsertOutcome.ok) = true) := by
  intro atts rest idA idB
  refine ⟨by simp [submitKeyLoop], by simp [submitKeyLoop], ?_⟩
  induction atts with
  | nil => simp [submitKeyLoop]
  | cons hd tl ih =>
      obtain ⟨id, r⟩ := hd
      by_cases hr : r = InsertOutcome.ok
      · subst hr
        simp [submitKeyLoop]
      · simp [submitKeyLoop, hr, ih, bne_iff_ne]

/-- C5 counterexample: the claim says a call is allowed whenever the
elapsed time is at least minInterval.  At exactly minInterval elapsed
(5s = 5000000000 ns, wait 5s) `Duration::from_secs(5).checked_sub(elapsed)`
is Some(0), so the code rejects with retry-after 0 instead of allowing. -/
theorem C5_boundary_counterexample :
    checkAndRecord [("1.2.3.4", 0)] "1.2.3.4" 5000000000 5
      = (RateOutcome.rejected 0, [("1.2.3.4", 0)]) ∧
    (checkAndRecord [("1.2.3.4", 0)] "1.2.3.4" 5000000000 5).1 ≠ RateOutcome.allowed := by
  decide

/-- C5 amended: a call is allowed (and stamped with now) exactly when no
prior record exists or elapsed STRICTLY exceeds minInterval; with
elapsed <= minInterval it is rejected, the record untouched, carrying
floor((minInterval - elapsed) in seconds) - so elapsed = minInterval is
rejected with retry-after 0.  The 5s/1s scenario behaves as the claim
states: allowed then rejected(4) for one identity, both allowed for two. -/
theorem C5_check_and_record_amended :
    ∀ (m : List (String × Nat)) (remote : String) (now wait last : Nat),
    (mapGet m remote = none →
      checkAndRecord m remote now wait = (RateOutcome.allowed, mapInsert m remote now)) ∧
    (mapGet m remote = some last → wait * 1000000000 < now - last →
      checkAndRecord m remote now wait = (RateOutcome.allowed, mapInsert m remote now)) ∧
    (mapGet m remote = some last → now - last ≤ wait * 1000000000 →
      checkAndRecord m remote now wait
        = (RateOutcome.rejected ((wait * 1000000000 - (now - last)) / 1000000000), m)) ∧
    (checkAndRecord [] "10.0.0.1" 0 5 = (RateOutcome.allowed, [("10.0.0.1", 0)]) ∧
      (checkAndRecord [("10.0.0.1", 0)] "10.0.0.1" 1000000000 5).1 = RateOutcome.rejected 4 ∧
      (checkAndRecord [("10.0.0.1", 0)] "10.0.0.2" 1000000000 5).1 = RateOutcome.allowed) := by
  intro m remote now wait last
  refine ⟨?_, ?_, ?_, by decide⟩
  · intro h
    unfold checkAndRecord
    rw [h]
  · intro h hlt
    unfold checkAndRecord
    rw [h]
    show (if now - last ≤ wait * 1000000000 then
          (RateOutcome.rejected ((wait * 1000000000 - (now - last)) / 1000000000), m)
        else (RateOutcome.allowed, mapInsert m remote now))
      = (RateOutcome.allowed, mapInsert m remote now)
    rw [if_neg (by omega)]
  · intro h hle
    unfold checkAndRecord
    rw [h]
    show (if now - last ≤ wait * 1000000000 then
          (RateOutcome.rejected ((wait * 1000000000 - (now - last)) / 1000000000), m)
        else (RateOutcome.allowed, mapInsert m remote now))
      = (RateOutcome.rejected ((wait * 1000000000 - (now - last)) / 1000000000), m)
    rw [if_pos hle]

/-- C5 witness: with a record 7 seconds old and a 5 second interval the
amended theorem yields allowed with the record restamped. -/
theorem C5_check_and_record_amended_witness :
    checkAndRecord [("8.8.8.8", 0)] "8.8.8.8" 7000000000 5
      = (RateOutcome.allowed, mapInsert [("8.8.8.8", 0)] "8.8.8.8" 7000000000) :=
  (C5_check_and_record_amended [("8.8.8.8", 0)] "8.8.8.8" 7000000000 5 0).2.1
    (by decide) (by decide)

/-- C6: the claim says a GET for a key absent from the store yields a 404
status.  The code does produce the user-facing NotFound outcome (not an
internal error), and any other store error becomes the internal Sqlx error
(status 500) - but `impl IntoResponse for Error` maps NotFound to
StatusCode::TOO_MANY_REQUESTS, so the handler answers 429 (serving the
404.html body), not 404. -/
theorem C6_notfound_status_is_429 :
    get_paste (some 64) ⟨[], []⟩ (fun _ => StoreLookup.rowNotFound) "nokey" 0
      = (Except.error Error.NotFound, ⟨[], []⟩) ∧
    errorStatus Error.NotFound = 429 ∧
    errorStatus Error.NotFound ≠ 404 ∧
    get_paste (some 64) ⟨[], []⟩ (fun _ => StoreLookup.otherError) "nokey" 0
      = (Except.error Error.Sqlx, ⟨[], []⟩) ∧
    errorStatus Error.Sqlx = 500 := by
  decide

/-- C7: with no cache capacity configured, a retrieval is exactly the
store lookup (cache state unchanged, every outcome decided by the store),
submission skips cache population, and the size-enforcer tick does
nothing. -/
theorem C7_disabled_cache_noop :
    ∀ (c : Cache) (store : String → StoreLookup) (id : String) (now : Nat)
      (key contents : String) (fuel : Nat),
    get_paste none c store id now =
      (match store id with
       | StoreLookup.rowNotFound => (Except.error Error.NotFound, c)
       | StoreLookup.otherError => (Except.error Error.Sqlx, c)
       | StoreLookup.row none => (Except.error Error.InternalError, c)
       | StoreLookup.row (some cs) => (Except.ok cs, c)) ∧
    submitCachePut none c key contents now = c ∧
    clear_cache_tick none fuel c = some c := by
  intro c store id now key contents fuel
  refine ⟨?_, rfl, rfl⟩
  unfold get_paste
  rw [cacheHit_disabled c id]

/-- C8: a cache hit returns the stored contents and leaves the cache (map
and ordering index) untouched; for a key absent from both the cache and
the store, a get returns NotFound and leaves the cache untouched, so any
number of repeated gets leaves it at the same state. -/
theorem C8_get_is_pure_on_hit_and_miss :
    ∀ (cfgN : Nat) (c : Cache) (store : String → StoreLookup) (id : String)
      (now : Nat) (item : String) (n : Nat),
    (mapGet c.data id = some item →
      get_paste (some cfgN) c store id now = (Except.ok item, c)) ∧
    (mapGet c.data id = none → store id = StoreLookup.rowNotFound →
      get_paste (some cfgN) c store id now = (Except.error Error.NotFound, c) ∧
      (fun s => (get_paste (some cfgN) s store id now).2)^[n] c = c) := by
  intro cfgN c store id now item n
  constructor
  · intro h
    unfold get_paste cacheHit
    rw [h]
  · intro h hstore
    have hfix : ∀ s : Cache, mapGet s.data id = none →
        get_paste (some cfgN) s store id now = (Except.error Error.NotFound, s) := by
      intro s hs
      unfold get_paste cacheHit
      rw [hs, hstore]
    refine ⟨hfix c h, ?_⟩
    have hc : (fun s => (get_paste (some cfgN) s store id now).2) c = c := by
      simp [hfix c h]
    exact Function.iterate_fixed hc n

/-- C8 witness: a concrete hit leaves the cache unchanged, and with the
key absent from cache and store a get misses and two repetitions leave the
cache at its initial state. -/
theorem C8_get_is_pure_on_hit_and_miss_witness :
    get_paste (some 64) ⟨[("k1", "v1")], [(3, "k1")]⟩ (fun _ => StoreLookup.rowNotFound) "k1" 0
      = (Except.ok "v1", ⟨[("k1", "v1")], [(3, "k1")]⟩) ∧
    (get_paste (some 64) ⟨[], []⟩ (fun _ => StoreLookup.rowNotFound) "zz" 0
        = (Except.error Error.NotFound, ⟨[], []⟩) ∧
      (fun s => (get_paste (some 64) s (fun _ => StoreLookup.rowNotFound) "zz" 0).2)^[2] ⟨[], []⟩
        = ⟨[], []⟩) :=
  ⟨(C8_get_is_pure_on_hit_and_miss 64 ⟨[("k1", "v1")], [(3, "k1")]⟩
      (fun _ => StoreLookup.rowNotFound) "k1" 0 "v1" 2).1 (by decide),
   (C8_get_is_pure_on_hit_and_miss 64 ⟨[], []⟩
      (fun _ => StoreLookup.rowNotFound) "zz" 0 "v1" 2).2 (by decide) rfl⟩

/-- C9: a client identity with no record in the rate-limit map is always
allowed (and stamped), never rejected. -/
theorem C9_no_prior_record_never_rejected :
    ∀ (m : List (String × Nat)) (remote : String) (now wait : Nat),
    mapGet m remote = none →
    checkAndRecord m remote now wait = (RateOutcome.allowed, mapInsert m remote now) := by
  intro m remote now wait h
  unfold checkAndRecord
  rw [h]

/-- C9 witness: an identity absent from a nonempty map is allowed. -/
theorem C9_no_prior_record_never_rejected_witness :
    checkAndRecord [("5.5.5.5", 3)] "6.6.6.6" 9 5
      = (RateOutcome.allowed, mapInsert [("5.5.5.5", 3)] "6.6.6.6" 9) :=
  C9_no_prior_record_never_rejected [("5.5.5.5", 3)] "6.6.6.6" 9 5 (by decide)

/-- C10: with rate limiting enabled, once the check-and-record stage
allows the request the client's record is already stamped with now; a
submission that then fails with PasteTooLarge, FieldInvalid, or a
multipart error still returns the stamped map, so the client's rate-limit
clock was reset by the failed submission. -/
theorem C10_ratelimit_stamped_before_checks :
    ∀ (cfg : Config) (xip : Option String) (addrIp : String) (len : Nat)
      (fields : List FieldRes) (m : List (String × Nat)) (c : Cache)
      (atts : List (String × InsertOutcome)) (now wait : Nat)
      (res : Except Error String) (m2 : List (String × Nat)) (c2 : Cache),
    cfg.ratelimit = some wait →
    (checkAndRecord m (xip.getD addrIp) now wait).1 = RateOutcome.allowed →
    submit cfg xip addrIp len fields m c atts now = some (res, m2, c2) →
    (res = Except.error Error.PasteTooLarge ∨ res = Except.error Error.FieldInvalid ∨
      res = Except.error Error.Multipart) →
    m2 = mapInsert m (xip.getD addrIp) now ∧
    mapGet m2 (xip.getD addrIp) = some now := by
  intro cfg xip addrIp len fields m c atts now wait res m2 c2 hrl hallow hsub hres
  rw [submit_ratelimit_some cfg xip addrIp len fields m c atts now wait hrl] at hsub
  rw [checkAndRecord_allowed_eq m (xip.getD addrIp) now wait hallow] at hsub
  have hm2 := submitBody_keeps_map cfg len fields (mapInsert m (xip.getD addrIp) now) c atts now
    res m2 c2 hsub
  subst hm2
  exact ⟨rfl, mapGet_insert_self m (xip.getD addrIp) now⟩

/-- C10 witness: an oversized submission (declared length 2000000 over the
1 MiB limit) from a fresh identity fails with PasteTooLarge yet returns
the map stamped with the submission time. -/
theorem C10_ratelimit_stamped_before_checks_witness :
    ([("9.9.9.9", 0)] : List (String × Nat)) = mapInsert [] "9.9.9.9" 0 ∧
    mapGet [("9.9.9.9", 0)] "9.9.9.9" = some 0 :=
  C10_ratelimit_stamped_before_checks ⟨"db", 8080, "a@b.c", some 1, some 5, none⟩ none "9.9.9.9"
    2000000 [] [] ⟨[], []⟩ [] 0 5 (Except.error Error.PasteTooLarge) [("9.9.9.9", 0)] ⟨[], []⟩
    rfl (by decide) (by decide) (Or.inl rfl)
